import Mathlib

/-!
# OpenBitLib tool-record transformation pipeline: a shallow embedding

This file embeds the pure core of the OpenBitLib publishing pipeline
(`gentoolwiki.py`, `db_utils.py`) in Lean 4 and proves properties of it.

Modelling conventions:
* Python runtime values flowing through the pipeline are modelled by `JVal`
  (strings, integers/floats as exact rationals, booleans, `None`, JSON-style
  lists and string-keyed dictionaries).  Python floats are modelled as exact
  rationals; every concrete value exercised by a theorem below is exactly
  representable in binary floating point, so the models agree there.
* A tool record (a row of the `tools` table, as returned by
  `fetch_tool_data`) is an association list `PyDict` from column names to
  values; `dict.get` is first-occurrence lookup with a default.
* Fallible Python code is embedded in `Except PyErr`; `try/except` blocks
  become explicit matches on the error kind.  `json.JSONDecodeError` is a
  subclass of `ValueError` and is modelled as `PyErr.valueError`.
* `json.loads` is modelled by `jsonLoads`, a recursive-descent reader of the
  JSON fragment the database blobs use (objects, arrays, escape-free strings,
  plain decimal numbers, `true`/`false`/`null`).
-/

/-- Kinds of Python exceptions the embedded code can raise or catch. -/
inductive PyErr where
  | valueError
  | typeError
  | attributeError
deriving DecidableEq, Repr

/-- Python values as they occur in the pipeline: `None`, booleans, numbers
(ints and floats, modelled as exact rationals), strings, lists, and
string-keyed dictionaries. -/
inductive JVal where
  | jnull
  | jbool (b : Bool)
  | jnum (q : ℚ)
  | jstr (s : String)
  | jarr (elems : List JVal)
  | jobj (fields : List (String × JVal))

open JVal

/-- Python `v == "lit"` for a string literal: equal only when `v` is the
same string (values of other types compare unequal, not raising). -/
def pyEqStr (v : JVal) (s : String) : Bool :=
  match v with
  | jstr t => t = s
  | _ => false

/-- Python truthiness (`bool(v)`) for the modelled values. -/
def truthy : JVal → Bool
  | jnull => false
  | jbool b => b
  | jnum q => q != 0
  | jstr s => s != ""
  | jarr l => !l.isEmpty
  | jobj l => !l.isEmpty

/-- A tool record: one row of the `tools` table as a column-name-keyed dict. -/
def PyDict := List (String × JVal)

/-- First-occurrence association-list lookup (Python `dict[k]` / `dict.get(k)`
semantics; the rows built by `fetch_tool_data` have unique keys). -/
def dictGet : List (String × JVal) → String → Option JVal
  | [], _ => none
  | (k, v) :: rest, key => if k = key then some v else dictGet rest key

/-- Python `dict.get(key, default)`. -/
def dictGetD (d : List (String × JVal)) (key : String) (dflt : JVal) : JVal :=
  (dictGet d key).getD dflt

/-- Python `dict[key] = value`: replace the first binding of `key`, or append
a new binding at the end (insertion order preserved). -/
def dictSet : List (String × JVal) → String → JVal → List (String × JVal)
  | [], key, v => [(key, v)]
  | (k, w) :: rest, key, v =>
      if k = key then (k, v) :: rest else (k, w) :: dictSet rest key v

/-- ASCII decimal digit. -/
def isDigitCh (c : Char) : Bool := '0' ≤ c && c ≤ '9'

/-- ASCII letter (the literal regex class `[a-zA-Z]`). -/
def isAlphaCh (c : Char) : Bool :=
  ('a' ≤ c && c ≤ 'z') || ('A' ≤ c && c ≤ 'Z')

/-- The whitespace characters recognised by Python's `str.strip()` and the
regex class `\s`, restricted to ASCII (the pipeline's data is ASCII). -/
def isPyWs (c : Char) : Bool :=
  c = ' ' || c = '\t' || c = '\n' || c = '\x0d' || c = '\x0b' || c = '\x0c'

/-- Python `str.strip()` on a character list: drop leading and trailing
whitespace. -/
def stripChars (l : List Char) : List Char :=
  ((l.dropWhile isPyWs).reverse.dropWhile isPyWs).reverse

/-- Python `str.strip()`. -/
def pyStrip (s : String) : String := ⟨stripChars s.data⟩

/-- Python `str.replace(",", "")`: drop every comma. -/
def stripCommas (s : String) : String := ⟨s.data.filter (fun c => c ≠ ',')⟩

/-- Python `str.lower()` (ASCII). -/
def pyLower (s : String) : String := ⟨s.data.map Char.toLower⟩

/-- `needle.isInfix haystack` on character lists: does `pat` occur as a
contiguous run inside `l`?  (Python's `"mm" in value`.) -/
def leadsList : List Char → List Char → Bool
  | [], _ => true
  | _ :: _, [] => false
  | p :: ps, c :: cs => p = c && leadsList ps cs

/-- Python `pat in s` (substring containment). -/
def containsList (pat : List Char) : List Char → Bool
  | [] => leadsList pat []
  | c :: cs => leadsList pat (c :: cs) || containsList pat cs

/-- Python substring test `pat in s`. -/
def pyContains (s pat : String) : Bool := containsList pat.data s.data

/-- Replace every (non-overlapping, leftmost-first) occurrence of the
nonempty pattern `p :: ps` in a character list; `str.replace(pat, rep)`.
The fuel argument is the input length: each step consumes at least one
character, so the recursion is structural and fully evaluable. -/
def replaceGo (p : Char) (ps rep : List Char) : ℕ → List Char → List Char
  | 0, l => l
  | fuel + 1, l =>
      match l with
      | [] => []
      | c :: cs =>
          if leadsList (p :: ps) (c :: cs) then
            rep ++ replaceGo p ps rep fuel (cs.drop ps.length)
          else
            c :: replaceGo p ps rep fuel cs

/-- Python `str.replace(pat, rep)` (every call site uses a nonempty
pattern; for the empty pattern the string is returned unchanged). -/
def pyReplace (s pat rep : String) : String :=
  match pat.data with
  | [] => s
  | p :: ps => ⟨replaceGo p ps rep.data s.data.length s.data⟩

/-- All characters of a (natural-number) decimal numeral. -/
def natDigits (n : ℕ) : List Char := (toString n).data

/-- Walk the digits of a numeral from least significant to most significant,
inserting a comma before every third digit. -/
def groupGo : List Char → ℕ → List Char
  | [], _ => []
  | c :: cs, k => (if k % 3 = 0 && k ≠ 0 then [',', c] else [c]) ++ groupGo cs (k + 1)

/-- Insert thousands separators into a digit list (Python `f"{n:,}"`,
grouping from the right in blocks of three). -/
def groupThousands (l : List Char) : List Char :=
  (groupGo l.reverse 0).reverse

/-- Python `f"{n:,}"` for an integer `n`. -/
def formatThousands (n : ℤ) : String :=
  (if n < 0 then "-" else "") ++ ⟨groupThousands (natDigits n.natAbs)⟩

/-- Round a rational to the nearest integer, ties to even (the rounding of
Python float formatting, exact on the rationals the theorems exercise). -/
def roundHalfEven (x : ℚ) : ℤ :=
  let f : ℤ := x.num.fdiv x.den
  let r : ℚ := x - f
  if r < 1 / 2 then f
  else if r > 1 / 2 then f + 1
  else if f % 2 = 0 then f else f + 1

/-- Left-pad a character list with zeros up to length `n`. -/
def padZeros (l : List Char) (n : ℕ) : List Char :=
  List.replicate (n - l.length) '0' ++ l

/-- Python `f"{x:.pf}"` fixed-point formatting of a float, modelled on exact
rationals with round-half-even. -/
def formatFixed (x : ℚ) (p : ℕ) : String :=
  let n : ℤ := roundHalfEven (x * (10 : ℚ) ^ p)
  let ds : List Char := padZeros (natDigits n.natAbs) (p + 1)
  let ip : List Char := ds.take (ds.length - p)
  let fp : List Char := ds.drop (ds.length - p)
  (if n < 0 then "-" else "") ++ ⟨ip⟩ ++ (if p = 0 then "" else "." ++ (⟨fp⟩ : String))

/-!
## `sanitize_filename` (gentoolwiki.py)

    if not name: return ""
    name = name.replace('"', "in")
    clean_name = re.sub(r'[<>:"/\\|?*\n\r]+', "_", name)
    return clean_name.strip()
-/

/-- The regex class `[<>:"/\\|?*\n\r]` of `sanitize_filename`. -/
def badFileChar (c : Char) : Bool :=
  c = '<' || c = '>' || c = ':' || c = '"' || c = '/' || c = '\\' ||
  c = '|' || c = '?' || c = '*' || c = '\n' || c = '\x0d'

/-- `name.replace('"', "in")` at character level. -/
def replQuote : List Char → List Char
  | [] => []
  | c :: cs => if c = '"' then 'i' :: 'n' :: replQuote cs else c :: replQuote cs

/-- `re.sub(r'[<>:"/\\|?*\n\r]+', "_", ...)`: each maximal run of special
characters becomes a single underscore.  The flag records whether the scan
is inside a run whose underscore has already been emitted. -/
def subSpecialGo : Bool → List Char → List Char
  | _, [] => []
  | inRun, c :: cs =>
      if badFileChar c then
        if inRun then subSpecialGo true cs else '_' :: subSpecialGo true cs
      else c :: subSpecialGo false cs

/-- The full `re.sub` replacement pass. -/
def subSpecial (l : List Char) : List Char := subSpecialGo false l

/-- `sanitize_filename` from gentoolwiki.py: quote-to-`in` replacement,
special-character runs to `_`, then strip. -/
def sanitize_filename (name : String) : String :=
  if name = "" then ""
  else ⟨stripChars (subSpecial (replQuote name.data))⟩

/-!
## `map_column_names` (gentoolwiki.py)
-/

/-- The fixed JSON-name → SQLite-name table of `map_column_names`. -/
def columnMapping : List (String × String) :=
  [("Diameter", "ToolDiameter"), ("Length", "OAL"),
   ("CuttingEdgeHeight", "LOC"), ("Material", "ToolMaterial"),
   ("ShankDiameter", "ToolShankSize")]

/-- `mapping.get(param, param)` over an association list of strings. -/
def alistGetD (l : List (String × String)) (k : String) : String :=
  match l.find? (fun p => p.1 = k) with
  | some p => p.2
  | none => k

/-- `map_column_names(param, direction)`: bidirectional rename between SQLite
column names and JSON parameter names; unknown directions raise
`ValueError`. -/
def map_column_names (param : String) (direction : String) : Except PyErr String :=
  if direction = "to_sqlite" then
    .ok (alistGetD columnMapping param)
  else if direction = "to_json" then
    .ok (alistGetD (columnMapping.map (fun p => (p.2, p.1))) param)
  else
    .error .valueError

/-!
## Numeric parsing and Python scalar conversions
-/

/-- Characters allowed in the numeric part of the measurement regex and in
`extract_numeric`'s match (`[0-9.]`). -/
def numCh (c : Char) : Bool := isDigitCh c || c = '.'

/-- Value of a list of decimal digits. -/
def digitsVal (l : List Char) : ℕ :=
  l.foldl (fun a c => a * 10 + (c.toNat - '0'.toNat)) 0

/-- Python `float(s)` on the decimal numerals the pipeline produces
(optional surrounding whitespace, optional sign, digits with at most one
decimal point, at least one digit).  `none` models a raised `ValueError`. -/
def parseFloat (s : String) : Option ℚ :=
  let l := stripChars s.data
  let (sign, l) := match l with
    | '-' :: rest => (true, rest)
    | '+' :: rest => (false, rest)
    | rest => (false, rest)
  let ip := l.takeWhile isDigitCh
  let rest := l.drop ip.length
  let body : Option ℚ :=
    match rest with
    | [] => if ip.isEmpty then none else some (digitsVal ip)
    | '.' :: fp =>
        if fp.all isDigitCh && !(ip.isEmpty && fp.isEmpty) then
          some ((digitsVal ip : ℚ) + (digitsVal fp : ℚ) / (10 : ℚ) ^ fp.length)
        else none
    | _ => none
  body.map (fun q => if sign then -q else q)

/-- Python `int(s)` (optional surrounding whitespace, optional sign, one or
more decimal digits).  `none` models a raised `ValueError`. -/
def pyIntOfString (s : String) : Option ℤ :=
  let l := stripChars s.data
  let (sign, l) := match l with
    | '-' :: rest => (true, rest)
    | '+' :: rest => (false, rest)
    | rest => (false, rest)
  if !l.isEmpty && l.all isDigitCh then
    some (if sign then -(digitsVal l : ℤ) else (digitsVal l : ℤ))
  else none

/-- Truncation toward zero: Python `int(float)`. -/
def ratTrunc (q : ℚ) : ℤ := q.num.tdiv q.den

/-- Python `int(value)` on a pipeline value: floats truncate toward zero,
strings are parsed, booleans coerce, everything else raises `TypeError`. -/
def pyInt (v : JVal) : Except PyErr ℤ :=
  match v with
  | jnum q => .ok (ratTrunc q)
  | jbool b => .ok (if b then 1 else 0)
  | jstr s =>
      match pyIntOfString s with
      | some n => .ok n
      | none => .error .valueError
  | jnull => .error .typeError
  | jarr _ => .error .typeError
  | jobj _ => .error .typeError

/-- Strip trailing zeros of a fixed-point string (but keep one digit after
the decimal point). -/
def trimZeros (s : String) : String :=
  let l := s.data.reverse.dropWhile (fun c => c = '0')
  let l := if l.head? = some '.' then '0' :: l else l
  ⟨l.reverse⟩

/-- Decimal rendering of a number for Python `str()`: integers render bare;
non-integer floats are rendered as short decimals (Python's shortest
round-trip float repr, modelled for the short decimal fractions the
pipeline manipulates — no theorem below evaluates the non-integer case). -/
def numRepr (q : ℚ) : String :=
  if q.den = 1 then toString q.num else trimZeros (formatFixed q 6)

mutual

/-- Python `repr(v)` (string escaping not modelled; keys and values in this
pipeline contain no quotes). -/
def pyRepr : JVal → String
  | jnull => "None"
  | jbool true => "True"
  | jbool false => "False"
  | jnum q => numRepr q
  | jstr s => "\x27" ++ s ++ "\x27"
  | jarr l => "[" ++ ", ".intercalate (pyReprList l) ++ "]"
  | jobj l => "\x7b" ++ ", ".intercalate (pyReprFields l) ++ "\x7d"

/-- `repr` of the elements of a list. -/
def pyReprList : List JVal → List String
  | [] => []
  | v :: vs => pyRepr v :: pyReprList vs

/-- `repr` of the fields of a dict. -/
def pyReprFields : List (String × JVal) → List String
  | [] => []
  | (k, v) :: vs => ("\x27" ++ k ++ "\x27: " ++ pyRepr v) :: pyReprFields vs

end

/-- Python `str(v)`. -/
def pyStr : JVal → String
  | jstr s => s
  | v => pyRepr v

/-!
## `fractions.Fraction.limit_denominator` (CPython), used by
`format_measurement`.
-/

/-- The continued-fraction loop of CPython's `limit_denominator` (state
`(p0, q0, p1, q1, n, d)`; Python `//` is floor division). -/
def limitDenomGo (maxDen : ℕ) : ℕ → ℤ × ℤ × ℤ × ℤ × ℤ × ℤ → ℤ × ℤ × ℤ × ℤ
  | 0, (p0, q0, p1, q1, _, _) => (p0, q0, p1, q1)
  | fuel + 1, (p0, q0, p1, q1, n, d) =>
      let a := n.fdiv d
      let q2 := q0 + a * q1
      if q2 > (maxDen : ℤ) then (p0, q0, p1, q1)
      else limitDenomGo maxDen fuel (p1, q1, p0 + a * p1, q2, d, n - a * d)

/-- `Fraction(x).limit_denominator(maxDen)`: the closest fraction to `x`
with denominator at most `maxDen` (CPython's algorithm; ties prefer the
higher-order convergent). -/
def limitDenominator (x : ℚ) (maxDen : ℕ) : ℚ :=
  if x.den ≤ maxDen then x
  else
    let (p0, q0, p1, q1) :=
      limitDenomGo maxDen (x.den + 2) (0, 1, 1, 0, x.num, (x.den : ℤ))
    let k := ((maxDen : ℤ) - q0).fdiv q1
    let bound1 : ℚ := ((p0 + k * p1 : ℤ) : ℚ) / ((q0 + k * q1 : ℤ) : ℚ)
    let bound2 : ℚ := ((p1 : ℤ) : ℚ) / ((q1 : ℤ) : ℚ)
    if |bound2 - x| ≤ |bound1 - x| then bound2 else bound1

/-!
## `format_measurement` (gentoolwiki.py, lines 110-182)
-/

/-- The regex `^([\d\.]+)\s*([a-zA-Z\"']*)$` of `format_measurement` and
`extract_numeric_value_with_unit`: numeric part, optional whitespace,
optional unit token, nothing else. -/
def matchMeasure (s : String) : Option (String × String) :=
  let l := s.data
  let numPart := l.takeWhile numCh
  if numPart.isEmpty then none
  else
    let rest1 := (l.drop numPart.length).dropWhile isPyWs
    let unitPart := rest1.takeWhile (fun c => isAlphaCh c || c = '"' || c = '\x27')
    if (rest1.drop unitPart.length).isEmpty then
      some (⟨numPart⟩, ⟨unitPart⟩)
    else none

/-- `format_measurement(value, convert_to_fraction, add_quotes)`: renders a
measurement string for wiki output.  `None`/blank input gives `"N/A"`;
unmatched, metric, or unknown-unit input is returned unchanged; a  
`ValueError` from `float()` is caught and the input returned unchanged;
non-string input raises `AttributeError` (`value.strip()`). -/
def format_measurement (value : JVal) (convert_to_fraction add_quotes : Bool) :
    Except PyErr String :=
  match value with
  | jnull => .ok "N/A"
  | jstr s =>
    if pyStrip s = "" then .ok "N/A"
    else
      match matchMeasure (pyStrip s) with
      | none => .ok s
      | some (numStr, unitRaw) =>
        let unit := if unitRaw = "\"" || unitRaw = "" then "in" else unitRaw
        match parseFloat numStr with
        | none => .ok s
        | some num =>
          if unit = "in" then
            let fv :=
              if convert_to_fraction then
                if num.den = 1 then toString num.num
                else
                  let fr := limitDenominator num 64
                  if fr.num > (fr.den : ℤ) then
                    let whole := fr.num.toNat / fr.den
                    let rem := fr.num.toNat % fr.den
                    if rem > 0 then
                      toString whole ++ "-" ++ toString rem ++ "/" ++ toString fr.den
                    else toString whole
                  else toString fr.num ++ "/" ++ toString fr.den
              else numStr
            if add_quotes then .ok (fv ++ "\"") else .ok (fv ++ " in")
          else if unit = "mm" then .ok s
          else .ok s
  | _ => .error .attributeError

/-- `extract_numeric_value_with_unit(value)` (gentoolwiki.py, lines
185-209): numeric part and unit of a measurement string, `(0.0, "in")` for
anything unparseable or non-string; a malformed numeric part (for example
`"..."`) raises `ValueError` through `float()`. -/
def extract_numeric_value_with_unit (value : JVal) : Except PyErr (ℚ × String) :=
  match value with
  | jstr s =>
    if s = "" then .ok (0, "in")
    else
      match matchMeasure (pyStrip s) with
      | some (numStr, unitRaw) =>
        match parseFloat numStr with
        | none => .error .valueError
        | some q => .ok (q, if pyStrip unitRaw = "" then "in" else pyStrip unitRaw)
      | none => .ok (0, "in")
  | _ => .ok (0, "in")

/-- `convert_to_original_unit(value, unit)` (gentoolwiki.py, lines 212-230):
render a numeric value back into its unit's textual form. -/
def convert_to_original_unit (value : ℚ) (unit : String) : String :=
  if unit = "mm" then formatFixed (value * (254 / 10)) 3 ++ " mm"
  else if unit = "in" then formatFixed value 4 ++ " in"
  else formatFixed value 4 ++ " " ++ unit

/-!
## `extract_numeric` (db_utils.py, lines 632-668)
-/

/-- `re.search(r"-?[0-9.]+", value)`: the first (leftmost, greedy) match of
an optional minus sign followed by digits and dots. -/
def firstNumMatch : List Char → Option (List Char)
  | [] => none
  | c :: cs =>
      if c = '-' then
        match cs with
        | d :: _ =>
            if numCh d then some ('-' :: cs.takeWhile numCh)
            else firstNumMatch cs
        | [] => none
      else if numCh c then some ((c :: cs).takeWhile numCh)
      else firstNumMatch cs

/-- `extract_numeric(value, field_type)` from db_utils.py: strip commas,
find the first numeric substring, convert mm to inches for dimension
fields.  Falsy input gives `None`; a match that is not a valid float (for
example `"."`) raises `ValueError`; truthy non-string input raises
`AttributeError` (`value.replace`). -/
def extract_numeric (value : JVal) (field_type : Option String) :
    Except PyErr (Option ℚ) :=
  if !truthy value then .ok none
  else match value with
  | jstr s0 =>
    let s := stripCommas s0
    match firstNumMatch s.data with
    | none => .ok none
    | some m =>
      match parseFloat (⟨m⟩ : String) with
      | none => .error .valueError
      | some number =>
        if field_type = some "dimension" then
          if pyContains (pyLower s) "mm" then .ok (some (number / (254 / 10)))
          else .ok (some number)
        else .ok (some number)
  | _ => .error .attributeError

/-!
## `json.loads` on the database blobs

A recursive-descent reader of the JSON fragment the `ShapeParameter` /
`ShapeAttribute` blobs use: objects, arrays, escape-free strings, plain
decimal numbers, `true`/`false`/`null`.  A failed parse models the raised
`json.JSONDecodeError` (a subclass of `ValueError`).
-/

/-- JSON insignificant whitespace. -/
def jsonWs (c : Char) : Bool := c = ' ' || c = '\t' || c = '\n' || c = '\x0d'

/-- Read a JSON string body after the opening quote (escape-free). -/
def parseJString (l : List Char) : Option (String × List Char) :=
  let body := l.takeWhile (fun c => c ≠ '"' && c ≠ '\\')
  match l.drop body.length with
  | '"' :: rest => some (⟨body⟩, rest)
  | _ => none

/-- Read a JSON number (optional minus, digits, optional fraction). -/
def parseJNum (l : List Char) : Option (ℚ × List Char) :=
  let (sign, l1) := match l with
    | '-' :: rest => (true, rest)
    | rest => (false, rest)
  let ip := l1.takeWhile isDigitCh
  if ip.isEmpty then none
  else
    let rest := l1.drop ip.length
    let qr : ℚ × List Char :=
      match rest with
      | '.' :: fp0 =>
        let fp := fp0.takeWhile isDigitCh
        if fp.isEmpty then ((digitsVal ip : ℚ), rest)
        else ((digitsVal ip : ℚ) + (digitsVal fp : ℚ) / (10 : ℚ) ^ fp.length,
              fp0.drop fp.length)
      | _ => ((digitsVal ip : ℚ), rest)
    some (if sign then -qr.1 else qr.1, qr.2)

mutual

/-- Read one JSON value (fuel-driven; the fuel is sized to the input). -/
def parseJVal : ℕ → List Char → Option (JVal × List Char)
  | 0, _ => none
  | fuel + 1, l =>
    match l.dropWhile jsonWs with
    | '"' :: rest => (parseJString rest).map (fun p => (jstr p.1, p.2))
    | '[' :: rest =>
        (parseJItems fuel (rest.dropWhile jsonWs)).map (fun p => (jarr p.1, p.2))
    | '\x7b' :: rest =>
        (parseJFields fuel (rest.dropWhile jsonWs)).map (fun p => (jobj p.1, p.2))
    | 't' :: rest =>
        if leadsList ['r', 'u', 'e'] rest then some (jbool true, rest.drop 3) else none
    | 'f' :: rest =>
        if leadsList ['a', 'l', 's', 'e'] rest then some (jbool false, rest.drop 4)
        else none
    | 'n' :: rest =>
        if leadsList ['u', 'l', 'l'] rest then some (jnull, rest.drop 3) else none
    | rest => (parseJNum rest).map (fun p => (jnum p.1, p.2))

/-- Read array items after `[` (leading whitespace consumed). -/
def parseJItems : ℕ → List Char → Option (List JVal × List Char)
  | 0, _ => none
  | fuel + 1, l =>
    match l with
    | ']' :: rest => some ([], rest)
    | _ =>
      match parseJVal fuel l with
      | none => none
      | some (v, rest) =>
        match rest.dropWhile jsonWs with
        | ',' :: rest2 =>
            (parseJItems fuel (rest2.dropWhile jsonWs)).map
              (fun p => (v :: p.1, p.2))
        | ']' :: rest2 => some ([v], rest2)
        | _ => none

/-- Read object fields after the opening brace (leading whitespace
consumed). -/
def parseJFields : ℕ → List Char → Option (List (String × JVal) × List Char)
  | 0, _ => none
  | fuel + 1, l =>
    match l with
    | '\x7d' :: rest => some ([], rest)
    | '"' :: rest =>
      match parseJString rest with
      | none => none
      | some (k, rest1) =>
        match rest1.dropWhile jsonWs with
        | ':' :: rest2 =>
          match parseJVal fuel rest2 with
          | none => none
          | some (v, rest3) =>
            match rest3.dropWhile jsonWs with
            | ',' :: rest4 =>
                (parseJFields fuel (rest4.dropWhile jsonWs)).map
                  (fun p => ((k, v) :: p.1, p.2))
            | '\x7d' :: rest4 => some ([(k, v)], rest4)
            | _ => none
        | _ => none
    | _ => none

end

/-- `json.loads(s)`: parse a complete JSON document; failure models the
raised `JSONDecodeError` (a `ValueError`). -/
def jsonLoads (s : String) : Except PyErr JVal :=
  match parseJVal (2 * s.length + 4) s.data with
  | some (v, rest) => if (rest.dropWhile jsonWs).isEmpty then .ok v else .error .valueError
  | none => .error .valueError

/-!
## The Tool Record Mapper (`map_tool_to_json`, gentoolwiki.py lines 233-342)
-/

/-- One row of the `FCShapes` table as surfaced by the shape resolver
(db_utils.py `ShapeData`): the shape's file name and its two JSON-array
blobs of parameter / attribute names (`None` when NULL in the database). -/
structure ShapeRow where
  ShapeName : String
  ShapeParameter : Option String
  ShapeAttribute : Option String

/-- Modelled from the spec: `fetch_shapes_by_type` is called by
`map_tool_to_json` but its definition is not part of the sources; per the
spec's Shape Schema Resolver, `resolve(shape_identifier)` looks the schema
up by exact identifier and signals NotFound (a falsy result) rather than
raising.  The lookup table is passed in as a function. -/
def ShapeResolver := JVal → Option ShapeRow

/-- `blob or "[]"` / `blob or "{}"`: a NULL or empty blob column falls back
to the given default text. -/
def blobOr (blob : Option String) (dflt : String) : String :=
  match blob with
  | none => dflt
  | some s => if s = "" then dflt else s

/-- `tool.get(key, "{}") or "{}"` followed by `json.loads`'s argument check:
a falsy stored value falls back to `"{}"`; a truthy non-string raises
`TypeError` inside `json.loads`. -/
def getBlobStr (tool : PyDict) (key : String) : Except PyErr String :=
  let v := dictGetD tool key (jstr "\x7b\x7d")
  if !truthy v then .ok "\x7b\x7d"
  else match v with
    | jstr s => .ok s
    | _ => .error .typeError

/-- Iterating a parsed blob as a list of names: the shape schema blobs are
JSON arrays of parameter-name strings (spec §3, `ShapeParameterNames`);
anything non-iterable raises `TypeError`.  (Arrays holding non-string
entries do not occur in the schema data and are mapped to `TypeError`
here.) -/
def toStrList (v : JVal) : Except PyErr (List String) :=
  match v with
  | jarr l =>
      l.foldr (fun e acc => do
        match e with
        | jstr s => return s :: (← acc)
        | _ => .error .typeError) (.ok [])
  | _ => .error .typeError

/-- Python `d.get(key, default)` on a parsed JSON value: raises
`AttributeError` when the value is not an object. -/
def objGetD (v : JVal) (key : String) (dflt : JVal) : Except PyErr JVal :=
  match v with
  | jobj l => .ok (dictGetD l key dflt)
  | _ => .error .attributeError

/-- The JSON structure `map_tool_to_json` builds: the literal keys of the
`json_data` dict (`version` is always the int 2; `shape-type`, `id` appear
only after version-specific reshaping). -/
structure ToolJson where
  version : ℤ
  name : JVal
  shape : JVal
  parameter : List (String × JVal)
  attrib : List (String × JVal)
  shapeType : Option JVal := none
  id : Option String := none

/-- The bullnose v1-0 `FlatRadius` computation (the `try` body at
gentoolwiki.py lines 294-314): extract diameter and corner radius with
units, raise `ValueError` on a unit mismatch, and render
`diameter/2 - corner_radius` back into the diameter's unit. -/
def flatRadiusCalc (tool : PyDict) (shapeParamVals : JVal) :
    Except PyErr String := do
  let (diameter, diameter_unit) ←
    extract_numeric_value_with_unit (dictGetD tool "ToolDiameter" (jstr "0"))
  let corner_radius_value ← objGetD shapeParamVals "CornerRadius" (jstr "0")
  let (corner_radius, corner_radius_unit) ←
    extract_numeric_value_with_unit corner_radius_value
  if diameter_unit ≠ corner_radius_unit then
    .error .valueError
  else
    .ok (convert_to_original_unit (diameter / 2 - corner_radius) diameter_unit)

/-- One step of the parameter-population loop (gentoolwiki.py lines
319-332): skip `CornerRadius` for v1-0 bullnose, then read the value from
the direct column under the SQLite name, falling back to the parsed
`ShapeParameter` blob under the schema name. -/
def populateParam (tool : PyDict) (shapeParamVals : JVal) (shape_name : String)
    (version : String) (j : ToolJson) (param : String) : Except PyErr ToolJson := do
  if param = "CornerRadius" && shape_name = "bullnose.fcstd" && version = "v1-0" then
    return j
  let db_param ← map_column_names param "to_sqlite"
  let fallback ← objGetD shapeParamVals param jnull
  let value := dictGetD tool db_param fallback
  return { j with parameter := dictSet j.parameter param value }

/-- One step of the attribute-population loop (gentoolwiki.py lines
335-340). -/
def populateAttr (tool : PyDict) (shapeAttrVals : JVal) (j : ToolJson)
    (attr : String) : Except PyErr ToolJson := do
  let db_attr ← map_column_names attr "to_sqlite"
  let fallback ← objGetD shapeAttrVals attr jnull
  let value := dictGetD tool db_attr fallback
  return { j with attrib := dictSet j.attrib attr value }

/-- `map_tool_to_json(tool, columns, version)` (gentoolwiki.py lines
233-342): map a tool row to the version-2 JSON structure.  An unresolved
shape degrades to `{Shape: <raw>}` with empty attributes (a printed warning,
not an exception); the v1-0 bullnose branch computes `FlatRadius` and
swallows `ValueError`/`TypeError` from that computation only. -/
def map_tool_to_json (fetch_shapes_by_type : ShapeResolver) (tool : PyDict)
    (version : String) : Except PyErr ToolJson := do
  let shape_type := dictGetD tool "Shape" (jstr "unknown")
  match fetch_shapes_by_type shape_type with
  | none =>
      return { version := 2,
               name := dictGetD tool "ToolName" (jstr "Unnamed Tool"),
               shape := shape_type,
               parameter := [("Shape", shape_type)],
               attrib := [] }
  | some shape_data =>
    let shape_name := shape_data.ShapeName
    let json0 : ToolJson :=
      { version := 2,
        name := dictGetD tool "ToolName" (jstr "Unnamed Tool"),
        shape := jstr shape_name,
        parameter := [],
        attrib := [] }
    let shape_parameters_list ← jsonLoads (blobOr shape_data.ShapeParameter "[]") >>= toStrList
    let shape_attributes_list ← jsonLoads (blobOr shape_data.ShapeAttribute "[]") >>= toStrList
    let shape_parameters_values ← getBlobStr tool "ShapeParameter" >>= jsonLoads
    let shape_attributes_values ← getBlobStr tool "ShapeAttribute" >>= jsonLoads
    let json1 ←
      if shape_name = "bullnose.fcstd" && version = "v1-0" then
        match flatRadiusCalc tool shape_parameters_values with
        | .ok fr =>
            pure { json0 with parameter := dictSet json0.parameter "FlatRadius" (jstr fr) }
        | .error .valueError => pure json0
        | .error .typeError => pure json0
        | .error e => throw e
      else pure json0
    let json2 ← shape_parameters_list.foldlM
      (populateParam tool shape_parameters_values shape_name version) json1
    let json3 ← shape_attributes_list.foldlM
      (populateAttr tool shape_attributes_values) json2
    return json3

/-!
## `convert_string_to_int` and the version-specific reshaping of
`generate_json_files` (gentoolwiki.py lines 377-457)
-/

/-- `value.isdigit() or (value.startswith("-") and value[1:].isdigit())`
followed by `int(value)`: integer-looking strings become ints. -/
def maybeIntStr (s : String) : JVal :=
  let core := match s.data with
    | '-' :: rest => rest
    | l => l
  if !core.isEmpty && core.all isDigitCh then
    match pyIntOfString s with
    | some n => jnum (n : ℚ)
    | none => jstr s
  else jstr s

mutual

/-- `convert_string_to_int` on one value stored in a dict or list: recurse
into containers, convert integer-looking strings, leave the rest. -/
def convEntry : JVal → JVal
  | jstr s => maybeIntStr s
  | jobj l => jobj (convObjList l)
  | jarr l => jarr (convArrList l)
  | v => v

/-- `convert_string_to_int` over dict fields. -/
def convObjList : List (String × JVal) → List (String × JVal)
  | [] => []
  | (k, v) :: rest => (k, convEntry v) :: convObjList rest

/-- `convert_string_to_int` over list items. -/
def convArrList : List JVal → List JVal
  | [] => []
  | v :: rest => convEntry v :: convArrList rest

end

/-- `convert_string_to_int(tool_json)`: the post-pass is applied to the
whole `json_data` dict, so every top-level value and both nested maps are
processed (`version` is already an int; `id` is assigned afterwards). -/
def convToolJson (tj : ToolJson) : ToolJson :=
  { version := tj.version,
    name := convEntry tj.name,
    shape := convEntry tj.shape,
    parameter := convObjList tj.parameter,
    attrib := convObjList tj.attrib,
    shapeType := tj.shapeType.map convEntry,
    id := tj.id }

/-- `sanitize_filename` as called on `tool_json["name"]`: the name is a
dict value, so a falsy value gives `""` and a truthy non-string raises
`AttributeError` (`name.replace`). -/
def sanitizeJV (name : JVal) : Except PyErr String :=
  if !truthy name then .ok ""
  else match name with
    | jstr s => .ok (sanitize_filename s)
    | _ => .error .attributeError

/-- The pure per-tool core of `generate_json_files` (gentoolwiki.py lines
419-452, minus file I/O): version-specific reshaping of the mapped
structure.  v1-0 applies the `radius.fcstd` → `roundover.fcstd` alias;
v1-1+ merges `attribute` into `parameter`, records `shape-type` from the
row, v1-2 adds a `Units` parameter, and after the string-to-int pass v1-1+
records `id` as the sanitized tool name. -/
def reshape_tool_json (tool : PyDict) (columns : List String) (tj : ToolJson)
    (version : String) : Except PyErr ToolJson := do
  let tj1 ←
    if version = "v1-0" then
      pure { tj with shape := if pyEqStr tj.shape "radius.fcstd" then jstr "roundover.fcstd" else tj.shape }
    else do
      let merged :=
        if !tj.attrib.isEmpty then
          { tj with parameter := tj.attrib.foldl (fun p kv => dictSet p kv.1 kv.2) tj.parameter,
                    attrib := [] }
        else tj
      let withShapeType := { merged with shapeType := some (dictGetD tool "Shape" (jstr "unknown")) }
      if version = "v1-2" then
        let units := if columns.contains "Units" then dictGet tool "Units" else some jnull
        let units := units.getD jnull
        let unitsVal := if truthy units then units else jstr "Imperial"
        pure { withShapeType with parameter := dictSet withShapeType.parameter "Units" unitsVal }
      else
        pure withShapeType
  let tj2 := convToolJson tj1
  let sanitized_tool_name ← sanitizeJV tj2.name
  if version ≠ "v1-0" then
    return { tj2 with id := some sanitized_tool_name }
  else
    return tj2

/-- The whole per-tool JSON pipeline for one version: `map_tool_to_json`
followed by the reshaping of `generate_json_files`. -/
def generate_tool_json (fetch_shapes_by_type : ShapeResolver) (tool : PyDict)
    (columns : List String) (version : String) : Except PyErr ToolJson := do
  let tj ← map_tool_to_json fetch_shapes_by_type tool version
  reshape_tool_json tool columns tj version

/-!
## The Tool-Table Line Generator (`generate_tool_table`, gentoolwiki.py
lines 1144-1198)
-/

/-- The RPM coercion of `generate_tool_table` (lines 1175-1183): strings
have commas stripped before `int(...)`; a `ValueError`/`TypeError` from the
conversion is caught and the value treated as 0.  (`int()` raises nothing
but those two, so the result is total.) -/
def rpmValue (max_rpm : JVal) : ℤ :=
  let converted :=
    match max_rpm with
    | jstr s => pyInt (jstr (stripCommas s))
    | v => pyInt v
  match converted with
  | .ok n => n
  | .error _ => 0

/-- The U-field policy of `generate_tool_table` (lines 1185-1191). -/
def uFieldOf (max_rpm_value machine_max_rpm : ℤ) : String :=
  if max_rpm_value = -1 then "U-1"
  else if max_rpm_value ≠ machine_max_rpm && max_rpm_value ≠ 0 then
    "U" ++ toString max_rpm_value
  else "U0"

/-- The per-tool body of `generate_tool_table` (gentoolwiki.py lines
1164-1196): one formatted tool-table line.  The diameter is the
inch-normalized value of `ToolDiameter` (0.0 when unparseable), the U field
encodes the RPM policy against the configured machine max RPM. -/
def generate_tool_table_line (tool : PyDict) (machine_max_rpm : ℤ) :
    Except PyErr String := do
  let tool_number := dictGetD tool "ToolNumber" jnull
  let tool_name := dictGetD tool "ToolName" (jstr "Unnamed Tool")
  let diameter_str := dictGetD tool "ToolDiameter" (jstr "0")
  let extracted ← extract_numeric diameter_str (some "dimension")
  let diameter : ℚ := extracted.getD 0
  let max_rpm := dictGetD tool "ToolMaxRPM" (jnum 0)
  let u_value := uFieldOf (rpmValue max_rpm) machine_max_rpm
  return "T" ++ pyStr tool_number ++ " P0 X0 Y0 Z0 A0 B0 C0 " ++ u_value ++
    " V0 W0 D" ++ formatFixed diameter 4 ++ " I0 J0 Q0 ;" ++ pyStr tool_name

/-!
## The Wiki Page Renderer (`generate_wiki_page`, gentoolwiki.py lines
871-1024)
-/

/-- The fixed wiki-markup template of `generate_wiki_page` (string literal
at gentoolwiki.py lines 875-920). -/
def wikiTemplate : String :=
  "\n[[Nibblerbot/tools|Back to Tool Library]]\n==Tool [ToolNumber] - [ToolName]==\n\x7b| class=\"wikitable\"\n|-\n!style=\"width: 200px;\"| Attribute !!style=\"width: 400px;\"| Details\n|-\n| \x27\x27\x27Tool #\x27\x27\x27 || [ToolNumber]\n|-\n| \x27\x27\x27Tool Type\x27\x27\x27 || [ToolType]\n|-\n| \x27\x27\x27Shank Size\x27\x27\x27 || [ToolShankSize]\n|-\n| \x27\x27\x27Diameter\x27\x27\x27 || [ToolDiameter]\n[INSERT_CORNERRADIUS][INSERT_CUTTINGRADIUS][INSERT_TAPERANGLE][INSERT_TAPERDIAMETER]|-\n| \x27\x27\x27Flutes (FL)\x27\x27\x27 || [Flutes]\n|-\n| \x27\x27\x27Overall Length (OAL)\x27\x27\x27 || [OAL]\n|-\n| \x27\x27\x27Length of Cut (LOC)\x27\x27\x27 || [LOC]\n|-\n| \x27\x27\x27Max RPM\x27\x27\x27 || [ToolMaxRPM]\n|-\n| \x27\x27\x27Material\x27\x27\x27 || [ToolMaterial]\n|-\n| \x27\x27\x27Coating\x27\x27\x27 || [ToolCoating]\n|-\n| \x27\x27\x27Part Number\x27\x27\x27 || [PartNumber]\n|-\n| \x27\x27\x27Manufacturer\x27\x27\x27 || [ManufacturerName]\n|-\n| \x27\x27\x27Image\x27\x27\x27 || [[File:[ToolImageFileName]|thumb|left]]\n|-\n| \x27\x27\x27Order Link\x27\x27\x27 || [[[ToolOrderURL] Click here to purchase this tool]]\n|\x7d\n\n==Usage Information==\n\x27\x27\x27Compatible Materials\x27\x27\x27: [Materials]\n\n\x27\x27\x27Recommended Speeds and Feeds\x27\x27\x27:\n \x27\x27\x27RPM\x27\x27\x27: [SuggestedRPM]\n \x27\x27\x27Feed Rate\x27\x27\x27: [SuggestedFeedRate]\n \x27\x27\x27Depth of Cut\x27\x27\x27: [SuggestedMaxDOC]\n\n==Additional Notes==\n[AdditionalNotes]"

/-- One conditional table row of `generate_wiki_page` (Corner Radius,
Cutting Radius, Taper Angle, Taper Diameter): present and truthy shape
parameters produce a formatted row, otherwise the empty string. -/
def condRowFor (shape_parameters : JVal) (key label : String) :
    Except PyErr String := do
  let v ← objGetD shape_parameters key jnull
  if truthy v then
    let fv ← format_measurement v true true
    return "|-\n| \x27\x27\x27" ++ label ++ "\x27\x27\x27 || " ++ fv ++ "\n"
  else
    return ""

/-- The placeholder list of `generate_wiki_page` (lines 969-990), in source
order. -/
def wikiPlaceholders : List String :=
  ["ToolNumber", "ToolName", "ToolType", "ToolShankSize", "Flutes", "OAL",
   "LOC", "ToolMaxRPM", "ToolDiameter", "ToolMaterial", "ToolCoating",
   "PartNumber", "ManufacturerName", "ToolOrderURL", "Materials",
   "SuggestedRPM", "SuggestedMaxDOC", "AdditionalNotes",
   "SuggestedFeedRate", "ToolImageFileName"]

/-- The per-placeholder formatting of `generate_wiki_page` (the loop body,
lines 1000-1019): the RPM sentinel `-1` renders `"N/A"`, other RPM values
go through `int(...)` with thousands separators, dimension fields go
through `format_measurement`, the image filename defaults to
`tool_<ToolNumber>.png`, and any other empty/missing value renders
`"N/A"`. -/
def wiki_format_field (tool_data : PyDict) (field : String) :
    Except PyErr String :=
  let value := dictGetD tool_data field jnull
  if field = "ToolMaxRPM" then
    if pyStr value = "-1" then .ok "N/A"
    else do
      let n ← pyInt value
      return formatThousands n
  else if field = "ToolShankSize" || field = "ToolDiameter" then
    format_measurement value true true
  else if field = "OAL" || field = "LOC" then
    format_measurement value false true
  else if field = "ToolImageFileName" then
    .ok (if truthy value then pyStr value
         else "tool_" ++ pyStr (dictGetD tool_data "ToolNumber" (jstr "unknown")) ++ ".png")
  else
    .ok (if truthy value then pyStr value else "N/A")

/-- The conditional-row phase of `generate_wiki_page` (lines 925-998):
build the four optional rows from the parsed `ShapeParameter` blob and
substitute them into the template's `[INSERT_*]` markers. -/
def buildRowsPage (shape_parameters : JVal) : Except PyErr String := do
  let corner_radius_row ← condRowFor shape_parameters "CornerRadius" "Corner Radius"
  let cutting_radius_row ← condRowFor shape_parameters "CuttingRadius" "Cutting Radius"
  let taper_angle_row ← condRowFor shape_parameters "TaperAngle" "Taper Angle"
  let taper_diameter_row ← condRowFor shape_parameters "TaperDiameter" "Taper Diameter"
  let page := pyReplace wikiTemplate "[INSERT_CORNERRADIUS]" corner_radius_row
  let page := pyReplace page "[INSERT_CUTTINGRADIUS]" cutting_radius_row
  let page := pyReplace page "[INSERT_TAPERANGLE]" taper_angle_row
  return pyReplace page "[INSERT_TAPERDIAMETER]" taper_diameter_row

/-- The placeholder-substitution loop of `generate_wiki_page` (lines
1000-1022): replace each `[field]` with its formatted value. -/
def renderFields (tool_data : PyDict) (page : String) : Except PyErr String :=
  wikiPlaceholders.foldlM (fun page field => do
    let fv ← wiki_format_field tool_data field
    return pyReplace page ("[" ++ field ++ "]") fv) page

/-- `generate_wiki_page(tool_data)` (gentoolwiki.py lines 871-1024): fill
the fixed template with conditional shape rows and the formatted field
values. -/
def generate_wiki_page (tool_data : PyDict) : Except PyErr String := do
  let shape_parameters ← getBlobStr tool_data "ShapeParameter" >>= jsonLoads
  let page ← buildRowsPage shape_parameters
  renderFields tool_data page

/-!
## Theorems
-/

set_option maxRecDepth 100000

/-- Equality of embedded results is decidable (used to evaluate concrete
runs of the pipeline). -/
instance {ε α : Type} [DecidableEq ε] [DecidableEq α] : DecidableEq (Except ε α) :=
  fun a b =>
    match a, b with
    | .ok x, .ok y =>
        if h : x = y then isTrue (by rw [h])
        else isFalse (by intro hh; cases hh; exact h rfl)
    | .error x, .error y =>
        if h : x = y then isTrue (by rw [h])
        else isFalse (by intro hh; cases hh; exact h rfl)
    | .ok _, .error _ => isFalse (by intro hh; cases hh)
    | .error _, .ok _ => isFalse (by intro hh; cases hh)

/-- The JSON-side names of the `map_column_names` table. -/
def jsonSideKeys : List String :=
  ["Diameter", "Length", "CuttingEdgeHeight", "Material", "ShankDiameter"]

/-- The SQLite-side names of the `map_column_names` table. -/
def sqliteSideKeys : List String :=
  ["ToolDiameter", "OAL", "LOC", "ToolMaterial", "ToolShankSize"]

/-- C8: the field-name mapping is a round-trip identity: every JSON-side
key maps to SQLite and back to itself, every SQLite-side key maps to JSON
and back to itself, and every name outside the table passes through
unchanged in both directions. -/
theorem map_column_names_roundtrip :
    (∀ n ∈ jsonSideKeys,
        (map_column_names n "to_sqlite").bind (fun m => map_column_names m "to_json") = .ok n) ∧
    (∀ n ∈ sqliteSideKeys,
        (map_column_names n "to_json").bind (fun m => map_column_names m "to_sqlite") = .ok n) ∧
    (∀ n : String, n ∉ jsonSideKeys → map_column_names n "to_sqlite" = .ok n) ∧
    (∀ n : String, n ∉ sqliteSideKeys → map_column_names n "to_json" = .ok n) := by
  refine ⟨by decide, by decide, ?_, ?_⟩
  · intro n hn
    simp only [jsonSideKeys, List.mem_cons, List.not_mem_nil, or_false, not_or] at hn
    obtain ⟨h1, h2, h3, h4, h5⟩ := hn
    simp [map_column_names, alistGetD, columnMapping, List.find?,
      Ne.symm h1, Ne.symm h2, Ne.symm h3, Ne.symm h4, Ne.symm h5]
  · intro n hn
    simp only [sqliteSideKeys, List.mem_cons, List.not_mem_nil, or_false, not_or] at hn
    obtain ⟨h1, h2, h3, h4, h5⟩ := hn
    simp [map_column_names, alistGetD, columnMapping, List.find?,
      Ne.symm h1, Ne.symm h2, Ne.symm h3, Ne.symm h4, Ne.symm h5]

/-- C8 witness: the round trip and pass-through at concrete names. -/
theorem map_column_names_roundtrip_witness :
    (map_column_names "Diameter" "to_sqlite").bind (fun m => map_column_names m "to_json") =
      .ok "Diameter" ∧
    map_column_names "Flutes" "to_sqlite" = .ok "Flutes" ∧
    map_column_names "Flutes" "to_json" = .ok "Flutes" := by
  refine ⟨map_column_names_roundtrip.1 "Diameter" (by decide),
          map_column_names_roundtrip.2.2.1 "Flutes" (by decide),
          map_column_names_roundtrip.2.2.2 "Flutes" (by decide)⟩

/-- C3: a tool record whose shape identifier resolves to no schema row is
mapped to the degraded structure `{Shape: <raw>}` with an empty attribute
map, returned normally (no exception). -/
theorem map_tool_unresolved_shape :
    ∀ (resolver : ShapeResolver) (tool : PyDict) (version : String),
      resolver (dictGetD tool "Shape" (jstr "unknown")) = none →
      map_tool_to_json resolver tool version =
        .ok { version := 2,
              name := dictGetD tool "ToolName" (jstr "Unnamed Tool"),
              shape := dictGetD tool "Shape" (jstr "unknown"),
              parameter := [("Shape", dictGetD tool "Shape" (jstr "unknown"))],
              attrib := [] } := by
  intro resolver tool version h
  simp [map_tool_to_json, h, pure, Except.pure]

/-- C3 witness: the degraded structure at shape `"unknown_shape"` under an
empty resolver. -/
theorem map_tool_unresolved_shape_witness :
    map_tool_to_json (fun _ => none)
      [("ToolName", jstr "Mystery"), ("Shape", jstr "unknown_shape")] "v1-1" =
      .ok { version := 2, name := jstr "Mystery", shape := jstr "unknown_shape",
            parameter := [("Shape", jstr "unknown_shape")], attrib := [] } := by
  have h := map_tool_unresolved_shape (fun _ => none)
    [("ToolName", jstr "Mystery"), ("Shape", jstr "unknown_shape")] "v1-1" rfl
  simpa [dictGetD, dictGet] using h

/-- A Python int renders as its decimal numeral (`repr` form). -/
theorem pyRepr_jnum_int (n : ℤ) : pyRepr (jnum (n : ℚ)) = toString n := by
  simp [pyRepr, numRepr, Rat.den_intCast, Rat.num_intCast]

/-- A Python int renders as its decimal numeral. -/
theorem pyStr_jnum_int (n : ℤ) : pyStr (jnum (n : ℚ)) = toString n := by
  simp [pyStr, pyRepr_jnum_int]

/-- Truncation is the identity on integers. -/
theorem ratTrunc_intCast (n : ℤ) : ratTrunc ((n : ℤ) : ℚ) = n := by
  simp only [ratTrunc, Rat.den_intCast, Rat.num_intCast, Nat.cast_one, Int.tdiv_one]

/-- The RPM coercion is the identity on stored integers. -/
theorem rpmValue_jnum_int (n : ℤ) : rpmValue (jnum (n : ℚ)) = n := by
  simp [rpmValue, pyInt, ratTrunc_intCast]

/-- The U-field policy as the spec words it: `U-1` for the sentinel `-1`,
`U<MaxRPM>` when the value is neither 0 nor the configured machine max RPM,
`U0` otherwise. -/
def specUField (maxRPM machineMax : ℤ) : String :=
  if maxRPM = -1 then "U-1"
  else if maxRPM ≠ 0 ∧ maxRPM ≠ machineMax then "U" ++ toString maxRPM
  else "U0"

/-- The generator's U-field agrees with the spec's wording. -/
theorem uFieldOf_eq_spec (n m : ℤ) : uFieldOf n m = specUField n m := by
  by_cases h1 : n = -1 <;> by_cases h2 : n = 0 <;> by_cases h3 : n = m <;>
    simp [uFieldOf, specUField, h1, h2, h3]

/-- The end-to-end record of the spec's tool-table example. -/
def toolTestBit : PyDict :=
  [("ToolNumber", jnum 21), ("ToolName", jstr "Test Bit"),
   ("ToolMaxRPM", jnum 18000), ("ToolDiameter", jstr "0.25 in")]

/-- C2: the tool-table line has the fixed format
`T<number> P0 X0 Y0 Z0 A0 B0 C0 <U-field> V0 W0 D<diameter:.4f> I0 J0 Q0 ;<name>`
with the U-field following the RPM policy, and the spec's example record
yields exactly the expected line. -/
theorem generate_tool_table_line_spec :
    (∀ (machine_max_rpm num rpm : ℤ) (name diam : String) (q : ℚ),
      extract_numeric (jstr diam) (some "dimension") = .ok (some q) →
      generate_tool_table_line
        [("ToolNumber", jnum num), ("ToolName", jstr name),
         ("ToolMaxRPM", jnum rpm), ("ToolDiameter", jstr diam)] machine_max_rpm =
      .ok ("T" ++ toString num ++ " P0 X0 Y0 Z0 A0 B0 C0 " ++
           specUField rpm machine_max_rpm ++ " V0 W0 D" ++ formatFixed q 4 ++
           " I0 J0 Q0 ;" ++ name)) ∧
    generate_tool_table_line toolTestBit 24000 =
      .ok "T21 P0 X0 Y0 Z0 A0 B0 C0 U18000 V0 W0 D0.2500 I0 J0 Q0 ;Test Bit" := by
  constructor
  · intro machine_max_rpm num rpm name diam q h
    simp [generate_tool_table_line, dictGetD, dictGet, h, rpmValue_jnum_int,
      uFieldOf_eq_spec, pyStr, pyRepr_jnum_int]
  · with_unfolding_all rfl

/-- C2 witness: the general format statement instantiated at the spec's
example record. -/
theorem generate_tool_table_line_spec_witness :
    generate_tool_table_line
      [("ToolNumber", jnum 21), ("ToolName", jstr "Test Bit"),
       ("ToolMaxRPM", jnum 18000), ("ToolDiameter", jstr "0.25 in")] 24000 =
    .ok ("T" ++ toString (21 : ℤ) ++ " P0 X0 Y0 Z0 A0 B0 C0 " ++
         specUField 18000 24000 ++ " V0 W0 D" ++ formatFixed (1 / 4) 4 ++
         " I0 J0 Q0 ;" ++ "Test Bit") := by
  exact generate_tool_table_line_spec.1 24000 21 18000 "Test Bit" "0.25 in" (1 / 4)
    (by with_unfolding_all rfl)

/-- C10: the tool-table generator never raises on the `ToolMaxRPM` field:
whatever value is stored, the line is produced; a string value has commas
stripped before conversion (`"18,000"` compares as 18000); a value whose
conversion fails is treated as 0 and yields `U0`; a missing/None value
yields `U0`. -/
theorem tool_table_rpm_robust :
    (∀ (v : JVal) (m : ℤ),
      (generate_tool_table_line
        [("ToolNumber", jnum 21), ("ToolName", jstr "Test Bit"),
         ("ToolMaxRPM", v), ("ToolDiameter", jstr "0.25 in")] m).isOk = true) ∧
    rpmValue (jstr "18,000") = 18000 ∧
    rpmValue jnull = 0 ∧
    (∀ s : String, pyIntOfString (stripCommas s) = none → rpmValue (jstr s) = 0) ∧
    (∀ m : ℤ, uFieldOf 0 m = "U0") := by
  have hd : extract_numeric (jstr "0.25 in") (some "dimension") = .ok (some (1 / 4)) := by
    with_unfolding_all rfl
  refine ⟨?_, by with_unfolding_all rfl, rfl, ?_, ?_⟩
  · intro v m
    simp [generate_tool_table_line, dictGetD, dictGet, hd, Except.isOk, Except.toBool]
  · intro s h
    simp [rpmValue, pyInt, h]
  · intro m
    simp [uFieldOf]

/-- C10 witness: an unconvertible RPM string is treated as 0 and the line
is still produced with `U0`. -/
theorem tool_table_rpm_robust_witness :
    (generate_tool_table_line
      [("ToolNumber", jnum 21), ("ToolName", jstr "Test Bit"),
       ("ToolMaxRPM", jstr "fast"), ("ToolDiameter", jstr "0.25 in")] 24000).isOk = true ∧
    rpmValue (jstr "fast") = 0 := by
  exact ⟨tool_table_rpm_robust.1 (jstr "fast") 24000,
         tool_table_rpm_robust.2.2.2.1 "fast" (by with_unfolding_all rfl)⟩

/-- C5 counterexample: `format_measurement("0", convert_to_fraction=True)`
returns `"0 in"`, not the bare `"0"` the claim states (the formatter always
appends a unit suffix to inch values). -/
theorem format_measurement_zero_cex :
    format_measurement (jstr "0") true false ≠ .ok "0" ∧
    format_measurement (jstr "0") true false = .ok "0 in" := by
  have h : format_measurement (jstr "0") true false = .ok "0 in" := by
    with_unfolding_all rfl
  refine ⟨?_, h⟩
  rw [h]
  intro hh
  have := Except.ok.inj hh
  simp at this

/-- C5 amended: with fraction conversion on, the numeric part of an inch
value renders as the nearest fraction with denominator at most 64 (mixed
number above 1, bare integer when whole) and the formatter appends `" in"`
(or a trailing quote when `add_quotes`); so `"0"` gives `"0 in"`, `"1"`
gives `"1 in"`, `"1.5"` gives `"1-1/2 in"`.  Metric input is returned
verbatim (not re-rendered at a configured precision), fraction-off input
keeps its original numeric text plus the unit suffix, and input that does
not match the measurement pattern — such as `"abc"` — is returned
unchanged. -/
theorem format_measurement_amended :
    format_measurement (jstr "0") true false = .ok "0 in" ∧
    format_measurement (jstr "1") true false = .ok "1 in" ∧
    format_measurement (jstr "1.5") true false = .ok "1-1/2 in" ∧
    format_measurement (jstr "1.5") true true = .ok "1-1/2\"" ∧
    format_measurement (jstr "abc") true false = .ok "abc" ∧
    format_measurement (jstr "12.7mm") true false = .ok "12.7mm" ∧
    format_measurement (jstr "12.7 mm") false false = .ok "12.7 mm" ∧
    format_measurement (jstr "0.2500 in") false false = .ok "0.2500 in" ∧
    (∀ (s : String) (c a : Bool), pyStrip s ≠ "" →
      matchMeasure (pyStrip s) = none → format_measurement (jstr s) c a = .ok s) ∧
    (∀ (s numStr : String) (c a : Bool), pyStrip s ≠ "" →
      matchMeasure (pyStrip s) = some (numStr, "mm") →
      format_measurement (jstr s) c a = .ok s) := by
  refine ⟨by with_unfolding_all rfl, by with_unfolding_all rfl, by with_unfolding_all rfl,
          by with_unfolding_all rfl, by with_unfolding_all rfl, by with_unfolding_all rfl,
          by with_unfolding_all rfl, by with_unfolding_all rfl, ?_, ?_⟩
  · intro s c a hs hm
    simp [format_measurement, hs, hm]
  · intro s numStr c a hs hm
    cases hp : parseFloat numStr <;>
      simp [format_measurement, hs, hm, hp]

/-- C5 witness: unmatched input is returned unchanged, instantiated at
`"x+y"`. -/
theorem format_measurement_amended_witness :
    format_measurement (jstr "x+y") true true = .ok "x+y" := by
  exact format_measurement_amended.2.2.2.2.2.2.2.2.1 "x+y" true true
    (by decide) (by with_unfolding_all rfl)

/-- C6 counterexample: the input `"."` contains no numeric substring, but
`extract_numeric` raises `ValueError` (`float(".")`) instead of returning
`None`. -/
theorem extract_numeric_dot_cex :
    extract_numeric (jstr ".") (some "dimension") = .error .valueError ∧
    (∀ r : Option ℚ, extract_numeric (jstr ".") (some "dimension") ≠ .ok r) := by
  have h : extract_numeric (jstr ".") (some "dimension") = .error .valueError := by
    with_unfolding_all rfl
  exact ⟨h, fun r hh => by rw [h] at hh; cases hh⟩

/-- C6 amended: `extract_numeric` strips commas and takes the first match
of `-?[0-9.]+`; when that match is a valid decimal numeral it behaves as
the claim states (leading sign supported, `"12.7mm"` normalizes to exactly
0.5 inches, inch/unitless values pass through, falsy or matchless input
gives `None`) — but when the match is not a valid numeral (as in `"."`),
`float()` raises a `ValueError` that propagates. -/
theorem extract_numeric_amended :
    extract_numeric (jstr "12.7mm") (some "dimension") = .ok (some (1 / 2)) ∧
    extract_numeric (jstr "1,234") (some "dimension") = .ok (some 1234) ∧
    extract_numeric (jstr "-0.5 in") (some "dimension") = .ok (some (-(1 / 2))) ∧
    extract_numeric (jstr "0.25") (some "dimension") = .ok (some (1 / 4)) ∧
    extract_numeric (jstr "12.7mm") none = .ok (some (127 / 10)) ∧
    extract_numeric jnull (some "dimension") = .ok none ∧
    (∀ ft : Option String, extract_numeric (jstr "") ft = .ok none) ∧
    (∀ (s : String) (ft : Option String), s ≠ "" →
      firstNumMatch (stripCommas s).data = none →
      extract_numeric (jstr s) ft = .ok none) ∧
    (∀ (s : String) (m : List Char), s ≠ "" →
      firstNumMatch (stripCommas s).data = some m →
      parseFloat (⟨m⟩ : String) = none →
      extract_numeric (jstr s) (some "dimension") = .error .valueError) := by
  refine ⟨by with_unfolding_all rfl, by with_unfolding_all rfl, by with_unfolding_all rfl,
          by with_unfolding_all rfl, by with_unfolding_all rfl, rfl, ?_, ?_, ?_⟩
  · intro ft
    simp [extract_numeric, truthy]
  · intro s ft hs hm
    simp [extract_numeric, truthy, hs, hm]
  · intro s m hs hm hp
    simp [extract_numeric, truthy, hs, hm, hp]

/-- C6 witness: the no-numeric-substring clause instantiated at `"mm"`. -/
theorem extract_numeric_amended_witness :
    extract_numeric (jstr "mm") (some "dimension") = .ok none := by
  exact extract_numeric_amended.2.2.2.2.2.2.2.1 "mm" (some "dimension")
    (by decide) (by with_unfolding_all rfl)


/-- The bullnose shape row as reference data: the resolver knows the
`bullnose` type with parameter names `["Diameter", "CornerRadius"]`. -/
def bullnoseResolver : ShapeResolver := fun v =>
  if pyEqStr v "bullnose" then
    some { ShapeName := "bullnose.fcstd",
           ShapeParameter := some "[\"Diameter\", \"CornerRadius\"]",
           ShapeAttribute := some "[]" }
  else none

/-- C4 counterexample: a stored `ShapeParameter` blob that is not valid
JSON is not treated as an empty object — `json.loads` raises
`JSONDecodeError` (a `ValueError`) out of both the renderer and the
mapper. -/
theorem malformed_blob_raises_cex :
    generate_wiki_page [("ToolNumber", jnum 21), ("ShapeParameter", jstr "\x7bbad")] =
      .error .valueError ∧
    map_tool_to_json bullnoseResolver
      [("ToolNumber", jnum 21), ("Shape", jstr "bullnose"),
       ("ShapeParameter", jstr "\x7bbad")] "v1-0" = .error .valueError := by
  exact ⟨by with_unfolding_all rfl, by with_unfolding_all rfl⟩

/-- Lookup skips a head binding with a different key. -/
theorem dictGet_cons_ne (k k' : String) (v : JVal) (d : List (String × JVal))
    (h : k ≠ k') : dictGet ((k, v) :: d) k' = dictGet d k' := by
  simp [dictGet, h]

/-- `dict.get` skips a head binding with a different key. -/
theorem dictGetD_cons_ne (k k' : String) (v dflt : JVal) (d : List (String × JVal))
    (h : k ≠ k') : dictGetD ((k, v) :: d) k' dflt = dictGetD d k' dflt := by
  simp [dictGetD, dictGet_cons_ne _ _ _ _ h]

/-- A field formatting step does not look at the `ShapeParameter` column,
so the value stored there is irrelevant to it. -/
theorem wiki_format_field_shadow (f : String) (hf : f ≠ "ShapeParameter")
    (v w : JVal) (rest : PyDict) :
    wiki_format_field (("ShapeParameter", v) :: rest) f =
    wiki_format_field (("ShapeParameter", w) :: rest) f := by
  have hne : "ShapeParameter" ≠ f := fun hh => hf hh.symm
  have hnum : ("ShapeParameter" : String) ≠ "ToolNumber" := by decide
  simp only [wiki_format_field, dictGetD_cons_ne _ _ _ _ _ hne,
    dictGetD_cons_ne _ _ _ _ _ hnum]

/-- Adding a `ShapeParameter` binding in front of a record that has none
does not change any field formatting step. -/
theorem wiki_format_field_shadow2 (f : String) (hf : f ≠ "ShapeParameter")
    (v : JVal) (rest : PyDict) :
    wiki_format_field rest f =
    wiki_format_field (("ShapeParameter", v) :: rest) f := by
  have hne : "ShapeParameter" ≠ f := fun hh => hf hh.symm
  have hnum : ("ShapeParameter" : String) ≠ "ToolNumber" := by decide
  simp only [wiki_format_field, dictGetD_cons_ne _ _ _ _ _ hne,
    dictGetD_cons_ne _ _ _ _ _ hnum]


/-- Monad-law step for the embedded results. -/
theorem ok_bind {α β : Type} (a : α) (f : α → Except PyErr β) :
    (Except.ok a >>= f) = f a := rfl

/-- The empty JSON object reads back as an empty dict. -/
theorem jsonLoads_emptyObj : jsonLoads "\x7b\x7d" = Except.ok (jobj []) := rfl

/-- The template after the conditional-row phase ran on an empty
`ShapeParameter` object: all four optional rows are empty. -/
def emptyRowsPage : String :=
  pyReplace (pyReplace (pyReplace (pyReplace wikiTemplate
    "[INSERT_CORNERRADIUS]" "") "[INSERT_CUTTINGRADIUS]" "")
    "[INSERT_TAPERANGLE]" "") "[INSERT_TAPERDIAMETER]" ""

/-- On an empty parameter object no optional row is inserted. -/
theorem buildRowsPage_empty : buildRowsPage (jobj []) = Except.ok emptyRowsPage := rfl

/-- The placeholder-substitution loop depends on the record only through
the per-field formatting. -/
theorem renderFold_congr (t1 t2 : PyDict) (fields : List String)
    (h : ∀ f ∈ fields, wiki_format_field t1 f = wiki_format_field t2 f) :
    ∀ page : String,
      fields.foldlM (fun page field => do
        let fv ← wiki_format_field t1 field
        return pyReplace page ("[" ++ field ++ "]") fv) page =
      fields.foldlM (fun page field => do
        let fv ← wiki_format_field t2 field
        return pyReplace page ("[" ++ field ++ "]") fv) page := by
  induction fields with
  | nil => intro page; rfl
  | cons f fs ih =>
      intro page
      have hf := h f (List.mem_cons_self _ _)
      simp only [List.foldlM_cons]
      rw [hf]
      cases hv : wiki_format_field t2 f with
      | error e => rfl
      | ok fv =>
          exact ih (fun g hg => h g (List.mem_cons_of_mem _ hg))
            (pyReplace page ("[" ++ f ++ "]") fv)

/-- `renderFields` applied to records that format every placeholder field
identically gives identical pages. -/
theorem renderFields_congr (t1 t2 : PyDict)
    (h : ∀ f ∈ wikiPlaceholders, wiki_format_field t1 f = wiki_format_field t2 f)
    (page : String) : renderFields t1 page = renderFields t2 page := by
  unfold renderFields
  exact renderFold_congr t1 t2 wikiPlaceholders h page

/-- A record whose `ShapeParameter` blob reads back as `"{}"` renders the
template with no optional rows and then substitutes the fields. -/
theorem generate_wiki_page_empty_blob (t : PyDict)
    (h : getBlobStr t "ShapeParameter" = .ok "\x7b\x7d") :
    generate_wiki_page t = renderFields t emptyRowsPage := by
  unfold generate_wiki_page
  rw [h, ok_bind, jsonLoads_emptyObj, ok_bind, buildRowsPage_empty, ok_bind]

/-- C4 amended: a `ShapeParameter` blob that is `None`, empty, or missing
is treated as the empty object — the page renders exactly as if `"{}"`
were stored — but a blob that is truly malformed JSON raises
`JSONDecodeError` (a `ValueError`) instead of degrading. -/
theorem empty_blob_treated_as_empty :
    (∀ rest : PyDict,
      generate_wiki_page (("ShapeParameter", jnull) :: rest) =
      generate_wiki_page (("ShapeParameter", jstr "\x7b\x7d") :: rest)) ∧
    (∀ rest : PyDict,
      generate_wiki_page (("ShapeParameter", jstr "") :: rest) =
      generate_wiki_page (("ShapeParameter", jstr "\x7b\x7d") :: rest)) ∧
    (∀ rest : PyDict, dictGet rest "ShapeParameter" = none →
      generate_wiki_page rest =
      generate_wiki_page (("ShapeParameter", jstr "\x7b\x7d") :: rest)) ∧
    generate_wiki_page [("ShapeParameter", jstr "not json")] = .error .valueError := by
  have hmem : ∀ f ∈ wikiPlaceholders, f ≠ "ShapeParameter" := by decide
  refine ⟨?_, ?_, ?_, by with_unfolding_all rfl⟩
  · intro rest
    rw [generate_wiki_page_empty_blob (("ShapeParameter", jnull) :: rest)
          (by simp [getBlobStr, dictGetD, dictGet, truthy]),
        generate_wiki_page_empty_blob (("ShapeParameter", jstr "\x7b\x7d") :: rest)
          (by simp [getBlobStr, dictGetD, dictGet, truthy])]
    exact renderFields_congr _ _
      (fun f hf => wiki_format_field_shadow f (hmem f hf) _ _ _) _
  · intro rest
    rw [generate_wiki_page_empty_blob (("ShapeParameter", jstr "") :: rest)
          (by simp [getBlobStr, dictGetD, dictGet, truthy]),
        generate_wiki_page_empty_blob (("ShapeParameter", jstr "\x7b\x7d") :: rest)
          (by simp [getBlobStr, dictGetD, dictGet, truthy])]
    exact renderFields_congr _ _
      (fun f hf => wiki_format_field_shadow f (hmem f hf) _ _ _) _
  · intro rest hrest
    rw [generate_wiki_page_empty_blob rest
          (by simp [getBlobStr, dictGetD, hrest, truthy]),
        generate_wiki_page_empty_blob (("ShapeParameter", jstr "\x7b\x7d") :: rest)
          (by simp [getBlobStr, dictGetD, dictGet, truthy])]
    exact renderFields_congr _ _
      (fun f hf => wiki_format_field_shadow2 f (hmem f hf) _ _) _

/-- C4 witness: the None-blob and missing-blob cases at small concrete
records. -/
theorem empty_blob_treated_as_empty_witness :
    generate_wiki_page [("ShapeParameter", jnull)] =
      generate_wiki_page [("ShapeParameter", jstr "\x7b\x7d")] ∧
    generate_wiki_page [("ToolNumber", jnum 21)] =
      generate_wiki_page [("ShapeParameter", jstr "\x7b\x7d"), ("ToolNumber", jnum 21)] := by
  exact ⟨empty_blob_treated_as_empty.1 [],
         empty_blob_treated_as_empty.2.2.1 [("ToolNumber", jnum 21)] rfl⟩

/-- C7 counterexample: a record with no stored `ToolMaxRPM` does not render
`"N/A"` — the renderer raises `TypeError` (`int(None)`) and no page is
produced. -/
theorem wiki_missing_rpm_cex :
    generate_wiki_page [("ToolNumber", jnum 21), ("ToolName", jstr "Test Bit")] =
      .error .typeError := by
  with_unfolding_all rfl

/-- C7 amended: each placeholder renders its formatted value, with `"N/A"`
for empty/missing values of the generic fields; `ToolMaxRPM` renders with
thousands separators when an integer is stored and as `"N/A"` for the
sentinel `-1`; the image filename defaults to `tool_<ToolNumber>.png`; but
a missing/None `ToolMaxRPM` raises `TypeError` instead of rendering
`"N/A"`. -/
theorem wiki_format_field_spec :
    (∀ (tool : PyDict) (field : String),
      field ∉ ["ToolMaxRPM", "ToolShankSize", "ToolDiameter", "OAL", "LOC",
               "ToolImageFileName"] →
      truthy (dictGetD tool field jnull) = false →
      wiki_format_field tool field = .ok "N/A") ∧
    (∀ (tool : PyDict) (n : ℤ), dictGet tool "ToolMaxRPM" = some (jnum (n : ℚ)) →
      toString n ≠ "-1" →
      wiki_format_field tool "ToolMaxRPM" = .ok (formatThousands n)) ∧
    (∀ tool : PyDict, dictGet tool "ToolMaxRPM" = some (jnum (-1)) →
      wiki_format_field tool "ToolMaxRPM" = .ok "N/A") ∧
    wiki_format_field [("ToolMaxRPM", jnum 18000)] "ToolMaxRPM" = .ok "18,000" ∧
    (∀ tool : PyDict, dictGet tool "ToolMaxRPM" = none →
      wiki_format_field tool "ToolMaxRPM" = .error .typeError) ∧
    (∀ tool : PyDict, truthy (dictGetD tool "ToolImageFileName" jnull) = false →
      wiki_format_field tool "ToolImageFileName" =
        .ok ("tool_" ++ pyStr (dictGetD tool "ToolNumber" (jstr "unknown")) ++ ".png")) := by
  refine ⟨?_, ?_, ?_, by with_unfolding_all rfl, ?_, ?_⟩
  · intro tool field hfield hval
    simp only [List.mem_cons, List.not_mem_nil, or_false, not_or] at hfield
    obtain ⟨h1, h2, h3, h4, h5, h6⟩ := hfield
    simp [wiki_format_field, h1, h2, h3, h4, h5, h6, hval]
  · intro tool n h hne
    have hs : pyStr (dictGetD tool "ToolMaxRPM" jnull) = toString n := by
      simp [dictGetD, h, pyStr_jnum_int]
    have hi : pyInt (dictGetD tool "ToolMaxRPM" jnull) = .ok n := by
      simp [dictGetD, h, pyInt, ratTrunc_intCast]
    simp [wiki_format_field, hs, hne, hi]
  · intro tool h
    have hs : pyStr (dictGetD tool "ToolMaxRPM" jnull) = "-1" := by
      simp only [dictGetD, h, Option.getD_some]
      with_unfolding_all rfl
    simp [wiki_format_field, hs]
  · intro tool h
    have hv : dictGetD tool "ToolMaxRPM" jnull = jnull := by
      simp [dictGetD, h]
    simp [wiki_format_field, hv, pyStr, pyRepr, pyInt]
  · intro tool hval
    have h1 : ("ToolImageFileName" : String) ≠ "ToolMaxRPM" := by decide
    have h2 : ("ToolImageFileName" : String) ≠ "ToolShankSize" := by decide
    have h3 : ("ToolImageFileName" : String) ≠ "ToolDiameter" := by decide
    have h4 : ("ToolImageFileName" : String) ≠ "OAL" := by decide
    have h5 : ("ToolImageFileName" : String) ≠ "LOC" := by decide
    simp [wiki_format_field, h1, h2, h3, h4, h5, hval]

/-- C7 witness: the amended clauses at a concrete record with a missing
generic field, the 18,000 RPM record, and a sentinel record. -/
theorem wiki_format_field_spec_witness :
    wiki_format_field [("ToolMaxRPM", jnum 18000)] "ToolCoating" = .ok "N/A" ∧
    wiki_format_field [("ToolMaxRPM", jnum (-1))] "ToolMaxRPM" = .ok "N/A" ∧
    wiki_format_field [("ToolNumber", jnum 7)] "ToolMaxRPM" = .error .typeError ∧
    wiki_format_field [("ToolNumber", jnum 7)] "ToolImageFileName" =
      .ok ("tool_" ++ pyStr (dictGetD [("ToolNumber", jnum 7)] "ToolNumber" (jstr "unknown")) ++ ".png") := by
  refine ⟨wiki_format_field_spec.1 [("ToolMaxRPM", jnum 18000)] "ToolCoating"
            (by decide) (by with_unfolding_all rfl),
          wiki_format_field_spec.2.2.1 [("ToolMaxRPM", jnum (-1))] (by with_unfolding_all rfl),
          wiki_format_field_spec.2.2.2.2.1 [("ToolNumber", jnum 7)] rfl,
          wiki_format_field_spec.2.2.2.2.2 [("ToolNumber", jnum 7)] rfl⟩

/-- The concrete bullnose record of the spec's FlatRadius example: diameter
`"1.0 in"`, corner radius `"0.25 in"` stored in the `ShapeParameter`
blob. -/
def bullnoseTool : PyDict :=
  [("ToolNumber", jnum 5), ("ToolName", jstr "Bull Bit"), ("Shape", jstr "bullnose"),
   ("ToolDiameter", jstr "1.0 in"),
   ("ShapeParameter", jstr "\x7b\"CornerRadius\": \"0.25 in\"\x7d")]

/-- C1 counterexample: in the merged-version outputs (v1-1 and v1-2) the
bullnose record keeps the raw `CornerRadius` parameter (`"0.25 in"`) and
carries no `FlatRadius` at all — the FlatRadius computation runs only for
v1-0. -/
theorem bullnose_merged_version_cex :
    (generate_tool_json bullnoseResolver bullnoseTool [] "v1-1").map
        (fun t => (dictGet t.parameter "FlatRadius",
                   (dictGet t.parameter "CornerRadius").map pyStr)) =
      .ok (none, some "0.25 in") ∧
    (generate_tool_json bullnoseResolver bullnoseTool [] "v1-2").map
        (fun t => (dictGet t.parameter "FlatRadius",
                   (dictGet t.parameter "CornerRadius").map pyStr)) =
      .ok (none, some "0.25 in") := by
  exact ⟨by with_unfolding_all rfl, by with_unfolding_all rfl⟩

/-- Updating one key leaves the lookup of any other key unchanged. -/
theorem dictGet_dictSet_ne (d : List (String × JVal)) (k k' : String) (v : JVal)
    (h : k' ≠ k) : dictGet (dictSet d k v) k' = dictGet d k' := by
  induction d with
  | nil =>
      have hnk : ¬(k = k') := fun hh => h hh.symm
      simp [dictSet, dictGet, hnk]
  | cons p rest ih =>
      obtain ⟨pk, pv⟩ := p
      by_cases hpk : pk = k
      · subst hpk
        have hnk : ¬(pk = k') := fun hh => h hh.symm
        simp [dictSet, dictGet, hnk]
      · simp [dictSet, hpk, dictGet, ih]

/-- The v1-0 bullnose parameter loop never errors when the value blob is an
object, never writes `FlatRadius` when the schema list lacks it, and never
writes `CornerRadius` (the skip branch). -/
theorem populate_fold_v10_bullnose (tool : PyDict) (pvals : List (String × JVal))
    (l : List String) (hfr : "FlatRadius" ∉ l) :
    ∀ j : ToolJson,
      ∃ j', l.foldlM (populateParam tool (jobj pvals) "bullnose.fcstd" "v1-0") j = .ok j' ∧
        dictGet j'.parameter "FlatRadius" = dictGet j.parameter "FlatRadius" ∧
        (dictGet j.parameter "CornerRadius" = none →
          dictGet j'.parameter "CornerRadius" = none) := by
  induction l with
  | nil =>
      intro j
      exact ⟨j, rfl, rfl, fun h => h⟩
  | cons p ps ih =>
      intro j
      have hfr' : "FlatRadius" ∉ ps := fun hh => hfr (List.mem_cons_of_mem _ hh)
      have hpf : p ≠ "FlatRadius" := fun hh => hfr (hh ▸ List.mem_cons_self _ _)
      by_cases hp : p = "CornerRadius"
      · obtain ⟨j', hj', hFR, hCR⟩ := ih hfr' j
        refine ⟨j', ?_, hFR, hCR⟩
        simp only [List.foldlM_cons]
        have hstep : populateParam tool (jobj pvals) "bullnose.fcstd" "v1-0" j p = .ok j := by
          simp [populateParam, hp, pure, Except.pure]
        rw [hstep, ok_bind]
        exact hj'
      · have hstep : populateParam tool (jobj pvals) "bullnose.fcstd" "v1-0" j p =
            .ok { j with
                  parameter := dictSet j.parameter p
                    (dictGetD tool (alistGetD columnMapping p) (dictGetD pvals p jnull)) } := by
          simp [populateParam, hp, map_column_names, objGetD, ok_bind, pure, Except.pure]
        obtain ⟨j', hj', hFR, hCR⟩ := ih hfr'
          { j with
            parameter := dictSet j.parameter p
              (dictGetD tool (alistGetD columnMapping p) (dictGetD pvals p jnull)) }
        refine ⟨j', ?_, ?_, ?_⟩
        · simp only [List.foldlM_cons]
          rw [hstep, ok_bind]
          exact hj'
        · rw [hFR]
          exact dictGet_dictSet_ne _ _ _ _ (fun hh => hpf hh.symm)
        · intro hnone
          exact hCR (by rw [dictGet_dictSet_ne _ _ _ _ (fun hh => hp hh.symm)]; exact hnone)

/-- The attribute loop never errors when the attribute blob is an object
and never touches the parameter map. -/
theorem attr_fold_keeps_parameter (tool : PyDict) (avals : List (String × JVal))
    (l : List String) :
    ∀ j : ToolJson,
      ∃ j', l.foldlM (populateAttr tool (jobj avals)) j = .ok j' ∧
        j'.parameter = j.parameter := by
  induction l with
  | nil => intro j; exact ⟨j, rfl, rfl⟩
  | cons a as' ih =>
      intro j
      have hstep : populateAttr tool (jobj avals) j a =
          .ok { j with
                attrib := dictSet j.attrib a
                  (dictGetD tool (alistGetD columnMapping a) (dictGetD avals a jnull)) } := by
        simp [populateAttr, map_column_names, objGetD, ok_bind, pure, Except.pure]
      obtain ⟨j', hj', hpar⟩ := ih
        { j with
          attrib := dictSet j.attrib a
            (dictGetD tool (alistGetD columnMapping a) (dictGetD avals a jnull)) }
      refine ⟨j', ?_, hpar⟩
      simp only [List.foldlM_cons]
      rw [hstep, ok_bind]
      exact hj'

/-- C1 amended: the FlatRadius derivation applies to the legacy v1-0
output, not the merged v1-1/v1-2 outputs.  For any bullnose record with
diameter `"1.0 in"` and corner radius `"0.25 in"` (stored in the
`ShapeParameter` blob), the v1-0 mapping emits
`parameter.FlatRadius = "0.2500 in"` and suppresses the raw `CornerRadius`
parameter; the concrete spec record does so through the whole v1-0 JSON
pipeline. -/
theorem bullnose_flatradius_v10 :
    (∀ (resolver : ShapeResolver) (tool : PyDict) (row : ShapeRow)
        (plist alist2 : List String) (pvals avals : List (String × JVal)),
      resolver (dictGetD tool "Shape" (jstr "unknown")) = some row →
      row.ShapeName = "bullnose.fcstd" →
      (jsonLoads (blobOr row.ShapeParameter "[]") >>= toStrList) = .ok plist →
      (jsonLoads (blobOr row.ShapeAttribute "[]") >>= toStrList) = .ok alist2 →
      (getBlobStr tool "ShapeParameter" >>= jsonLoads) = .ok (jobj pvals) →
      (getBlobStr tool "ShapeAttribute" >>= jsonLoads) = .ok (jobj avals) →
      dictGet tool "ToolDiameter" = some (jstr "1.0 in") →
      dictGet pvals "CornerRadius" = some (jstr "0.25 in") →
      "FlatRadius" ∉ plist →
      ∃ tj, map_tool_to_json resolver tool "v1-0" = .ok tj ∧
        dictGet tj.parameter "FlatRadius" = some (jstr "0.2500 in") ∧
        dictGet tj.parameter "CornerRadius" = none) ∧
    (generate_tool_json bullnoseResolver bullnoseTool [] "v1-0").map
        (fun t => ((dictGet t.parameter "FlatRadius").map pyStr,
                   dictGet t.parameter "CornerRadius")) =
      .ok (some "0.2500 in", none) := by
  constructor
  · intro resolver tool row plist alist2 pvals avals hres hname hp ha hv hw hd hc hfr
    have h1 : dictGetD tool "ToolDiameter" (jstr "0") = jstr "1.0 in" := by
      simp [dictGetD, hd]
    have h2 : extract_numeric_value_with_unit (jstr "1.0 in") = .ok (1, "in") := by
      with_unfolding_all rfl
    have h3 : objGetD (jobj pvals) "CornerRadius" (jstr "0") = .ok (jstr "0.25 in") := by
      simp [objGetD, dictGetD, hc]
    have h4 : extract_numeric_value_with_unit (jstr "0.25 in") = .ok (1 / 4, "in") := by
      with_unfolding_all rfl
    have hconv : convert_to_original_unit ((1 : ℚ) / 2 - 1 / 4) "in" = "0.2500 in" := by
      with_unfolding_all rfl
    have hfrc : flatRadiusCalc tool (jobj pvals) = .ok "0.2500 in" := by
      simp only [flatRadiusCalc, h1, h2, ok_bind, h3, h4]
      rw [if_neg (by simp : ¬("in" ≠ "in"))]
      exact congrArg Except.ok hconv
    simp only [map_tool_to_json, hres, hname, hp, ha, hv, hw, ok_bind, hfrc,
      decide_True, Bool.and_self, if_true, pure_bind, dictSet]
    obtain ⟨j2, hj2, hFR, hCR⟩ := populate_fold_v10_bullnose tool pvals plist hfr
      { version := 2, name := dictGetD tool "ToolName" (jstr "Unnamed Tool"),
        shape := jstr "bullnose.fcstd",
        parameter := [("FlatRadius", jstr "0.2500 in")], attrib := [],
        shapeType := none, id := none }
    rw [hj2, ok_bind]
    obtain ⟨j3, hj3, hpar⟩ := attr_fold_keeps_parameter tool avals alist2 j2
    rw [hj3, ok_bind]
    refine ⟨j3, rfl, ?_, ?_⟩
    · rw [hpar, hFR]
      simp [dictGet]
    · rw [hpar]
      exact hCR (by simp [dictGet])
  · with_unfolding_all rfl

/-- C1 witness: the v1-0 FlatRadius emission at the concrete bullnose
record and resolver. -/
theorem bullnose_flatradius_v10_witness :
    ∃ tj, map_tool_to_json bullnoseResolver bullnoseTool "v1-0" = .ok tj ∧
      dictGet tj.parameter "FlatRadius" = some (jstr "0.2500 in") ∧
      dictGet tj.parameter "CornerRadius" = none := by
  exact bullnose_flatradius_v10.1 bullnoseResolver bullnoseTool
    { ShapeName := "bullnose.fcstd",
      ShapeParameter := some "[\"Diameter\", \"CornerRadius\"]",
      ShapeAttribute := some "[]" }
    ["Diameter", "CornerRadius"] [] [("CornerRadius", jstr "0.25 in")] []
    (by with_unfolding_all rfl) rfl (by with_unfolding_all rfl)
    (by with_unfolding_all rfl) (by with_unfolding_all rfl)
    (by with_unfolding_all rfl) (by with_unfolding_all rfl)
    (by with_unfolding_all rfl) (by decide)

/-- Dropping a prefix twice is the same as dropping it once. -/
theorem dropWhile_idem (p : Char → Bool) (l : List Char) :
    List.dropWhile p (List.dropWhile p l) = List.dropWhile p l := by
  cases h : List.dropWhile p l with
  | nil => simp
  | cons c cs =>
      have hp := List.head?_dropWhile_not p l
      rw [h] at hp
      simp only [List.head?_cons] at hp
      simp [List.dropWhile_cons, hp]

/-- A stripped list strips to itself. -/
theorem stripChars_idem (l : List Char) :
    stripChars (stripChars l) = stripChars l := by
  unfold stripChars
  set u := l.dropWhile isPyWs with hu
  set w := u.reverse.dropWhile isPyWs with hw
  have hA : List.dropWhile isPyWs w.reverse = w.reverse := by
    cases hh : w.reverse with
    | nil => simp [hh]
    | cons c cs =>
        have hwne : w ≠ [] := by
          intro hnil
          rw [hnil] at hh
          simp at hh
        have hgl : w.getLast? = some c := by
          rw [← List.head?_reverse, hh]
          rfl
        obtain ⟨t, ht⟩ := List.dropWhile_suffix (l := u.reverse) isPyWs
        have hglu : u.reverse.getLast? = some c := by
          rw [← ht, List.getLast?_append, hgl]
          rfl
        have hhead : u.head? = some c := by
          rw [← List.getLast?_reverse]
          exact hglu
        have hnp := List.head?_dropWhile_not isPyWs l
        rw [← hu, hhead] at hnp
        have hnpc : isPyWs c = false := hnp
        simp [List.dropWhile_cons, hnpc]
  have hA2 : List.dropWhile isPyWs w = w := by
    rw [hw]
    exact dropWhile_idem _ _
  rw [hA, List.reverse_reverse, hA2]

/-- Every character of a stripped list came from the input. -/
theorem stripChars_subset (l : List Char) : ∀ c ∈ stripChars l, c ∈ l := by
  intro c hc
  unfold stripChars at hc
  rw [List.mem_reverse] at hc
  have hc2 := (List.dropWhile_sublist isPyWs).subset hc
  rw [List.mem_reverse] at hc2
  exact (List.dropWhile_sublist isPyWs).subset hc2

/-- The `re.sub` pass leaves no special character in its output. -/
theorem subSpecialGo_no_bad (b : Bool) (l : List Char) :
    ∀ c ∈ subSpecialGo b l, badFileChar c = false := by
  induction l generalizing b with
  | nil => simp [subSpecialGo]
  | cons x xs ih =>
      intro c hc
      simp only [subSpecialGo] at hc
      by_cases hb : badFileChar x
      · rw [if_pos hb] at hc
        cases b with
        | true => exact ih true c hc
        | false =>
            rcases List.mem_cons.mp hc with hc1 | hc2
            · rw [hc1]; decide
            · exact ih true c hc2
      · rw [if_neg hb] at hc
        rcases List.mem_cons.mp hc with hc1 | hc2
        · rw [hc1]; exact Bool.not_eq_true _ ▸ eq_false_of_ne_true hb
        · exact ih false c hc2

/-- The `re.sub` pass is the identity on inputs free of special
characters. -/
theorem subSpecialGo_eq_self (b : Bool) (l : List Char)
    (h : ∀ c ∈ l, badFileChar c = false) : subSpecialGo b l = l := by
  induction l generalizing b with
  | nil => rfl
  | cons x xs ih =>
      have hx := h x (List.mem_cons_self _ _)
      simp only [subSpecialGo, hx, Bool.false_eq_true, if_false]
      rw [ih false (fun c hc => h c (List.mem_cons_of_mem _ hc))]

/-- The quote replacement is the identity on quote-free inputs. -/
theorem replQuote_eq_self (l : List Char) (h : ∀ c ∈ l, c ≠ '"') :
    replQuote l = l := by
  induction l with
  | nil => rfl
  | cons x xs ih =>
      have hx := h x (List.mem_cons_self _ _)
      simp only [replQuote, hx, if_false, if_neg hx]
      rw [ih (fun c hc => h c (List.mem_cons_of_mem _ hc))]

/-- C9: `sanitize_filename` is idempotent — sanitizing an
already-sanitized name is a no-op. -/
theorem sanitize_filename_idempotent (x : String) :
    sanitize_filename (sanitize_filename x) = sanitize_filename x := by
  unfold sanitize_filename
  by_cases hx : x = ""
  · simp [hx]
  · rw [if_neg hx]
    set y : List Char := stripChars (subSpecial (replQuote x.data)) with hy
    by_cases hys : (⟨y⟩ : String) = ""
    · rw [if_pos hys, hys]
    · rw [if_neg hys]
      have hnb : ∀ c ∈ y, badFileChar c = false := by
        intro c hc
        have hc2 := stripChars_subset _ c (hy ▸ hc)
        exact subSpecialGo_no_bad false _ c hc2
      have h1 : replQuote y = y :=
        replQuote_eq_self y (fun c hc hq => by
          have hbc := hnb c hc
          rw [hq] at hbc
          exact absurd hbc (by decide))
      have h2 : subSpecial y = y := subSpecialGo_eq_self false y hnb
      have h3 : stripChars y = y := by
        rw [hy]
        exact stripChars_idem _
      show (⟨stripChars (subSpecial (replQuote (⟨y⟩ : String).data))⟩ : String) = ⟨y⟩
      have hdata : (⟨y⟩ : String).data = y := rfl
      rw [hdata, h1, h2, h3]
